import Mathlib

/-!
# Verification of the parcel-viewer core (`src/app.py`)

Shallow embedding of the bounded, cached, paginated feature-fetch core of
the Streamlit parcel viewer:

* `BBox` with `normalized`, `clamp`, `approx_area_deg2` (app.py lines 37-61);
  Python floats are modelled as exact rationals (`ℚ`).
* the count probe and paginated fetch `fetch_features_geojson`
  (app.py lines 106-168), parameterised by a `Remote` oracle that supplies
  the remote service's responses, and instrumented to record the list of
  HTTP requests issued;
* the result cache produced by the `st.cache_data(ttl=300)` decorator on
  `fetch_features_geojson` (app.py line 130): memoization on the exact
  argument tuple with a 300-second time-to-live;
* the viewport gate inlined in `main` (app.py lines 330-336).
-/

/-- A geographic bounding box, `app.py` `BBox` (west, south, east, north),
coordinates in degrees modelled as exact rationals. -/
structure BBox where
  west : ℚ
  south : ℚ
  east : ℚ
  north : ℚ
deriving DecidableEq, Repr

namespace BBox

/-- `BBox.to_envelope`: the four bounds as (xmin, ymin, xmax, ymax). -/
def to_envelope (b : BBox) : ℚ × ℚ × ℚ × ℚ :=
  (b.west, b.south, b.east, b.north)

/-- `BBox.normalized`: `sorted([west, east])` and `sorted([south, north])`;
on two elements Python's `sorted` returns (min, max). -/
def normalized (b : BBox) : BBox :=
  ⟨min b.west b.east, min b.south b.north, max b.west b.east, max b.south b.north⟩

/-- `BBox.clamp`: each coordinate clipped to its range independently,
`max(-180, min(180, x))` for longitudes and `max(-90, min(90, y))` for
latitudes. -/
def clamp (b : BBox) : BBox :=
  ⟨max (-180) (min 180 b.west), max (-90) (min 90 b.south),
   max (-180) (min 180 b.east), max (-90) (min 90 b.north)⟩

/-- `BBox.approx_area_deg2`: `b = self.normalized().clamp()`, then
`max(0, (b.east - b.west) * (b.north - b.south))`. -/
def approx_area_deg2 (b : BBox) : ℚ :=
  let c := b.normalized.clamp
  max 0 ((c.east - c.west) * (c.north - c.south))

end BBox

/-- Errors surfaced by `_http_get_json`: `r.raise_for_status()` raises
`requests.HTTPError` on a non-success status, and transport failures raise
other `requests.RequestException`s. -/
inductive FetchError where
  | httpError (status : Nat)
  | networkError
deriving DecidableEq, Repr

/-- One HTTP request issued by the fetch path: the count-only query of
`_arcgis_count`, or one page query of `_arcgis_query_geojson` with its
`resultOffset` and `resultRecordCount` parameters. -/
inductive Request where
  | countReq
  | pageReq (resultOffset : Int) (resultRecordCount : Int)
deriving DecidableEq, Repr

/-- A GeoJSON FeatureCollection: the ordered list of features. The feature
payloads (geometry + properties) are opaque to the fetch logic, so the type
is parameterised by the feature type `α`. -/
structure FeatureCollection (α : Type) where
  features : List α
deriving DecidableEq, Repr

/-- The remote ArcGIS service, as an oracle of responses:
`countResponse` is the body of the count-only query (`data.get("count")`,
`none` when the key is missing), and `pageResponse offset rc` is the
`features` list of the page query at that `resultOffset`/`resultRecordCount`
(a missing `features` key behaves as the empty list). Either may fail. -/
structure Remote (α : Type) where
  countResponse : Except FetchError (Option Int)
  pageResponse : Int → Int → Except FetchError (List α)

/-- `_arcgis_count`: issues the count query and returns
`int(data.get("count", 0))`. -/
def arcgis_count {α : Type} (remote : Remote α) : Except FetchError Int :=
  remote.countResponse.map (fun o => o.getD 0)

/-- `int(math.ceil(a / b))` on Python ints: exact rational division then
ceiling. -/
def py_ceil_div (a b : Int) : Int :=
  Int.ceil ((a : ℚ) / (b : ℚ))

/-- Python's slice `xs[:target]` for an `int` target: the first `target`
elements when `target ≥ 0`, and all but the last `-target` elements when
`target < 0`. -/
def py_slice {α : Type} (xs : List α) (target : Int) : List α :=
  if 0 ≤ target then xs.take target.toNat
  else xs.take (xs.length - (-target).toNat)

/-- The page loop of `fetch_features_geojson` (app.py lines 151-166), over
the remaining page indices: `offset = i*page_size`,
`remaining = target - offset`, `rc = min(page_size, remaining)`; issue the
page request; on failure the exception propagates (the accumulator is
discarded); on success extend the accumulator and break once
`len(features) >= target`. Returns the page requests issued and either the
accumulated features or the error. -/
def runPages {α : Type} (remote : Remote α) (target page_size : Int) :
    List Nat → List α → List Request → List Request × Except FetchError (List α)
  | [], acc, reqs => (reqs, .ok acc)
  | i :: rest, acc, reqs =>
    let offset : Int := (i : Int) * page_size
    let remaining : Int := target - offset
    let rc : Int := min page_size remaining
    match remote.pageResponse offset rc with
    | .error e => (reqs ++ [Request.pageReq offset rc], .error e)
    | .ok chunk =>
      let acc2 := acc ++ chunk
      if target ≤ (acc2.length : Int) then
        (reqs ++ [Request.pageReq offset rc], .ok acc2)
      else
        runPages remote target page_size rest acc2 (reqs ++ [Request.pageReq offset rc])

/-- `fetch_features_geojson` (app.py lines 131-168), instrumented with the
list of HTTP requests it issues: first the count query; if `total <= 0`
return the empty FeatureCollection; otherwise `target = min(total,
max_features)`, `pages = int(math.ceil(target / page_size))`, run the page
loop, and return the accumulator truncated to `features[:target]`. Any
request failure propagates as the error. -/
def fetch_features_geojson {α : Type} (remote : Remote α)
    (max_features : Int) (page_size : Int) :
    List Request × Except FetchError (FeatureCollection α) :=
  match arcgis_count remote with
  | .error e => ([Request.countReq], .error e)
  | .ok total =>
    if total ≤ 0 then
      ([Request.countReq], .ok ⟨[]⟩)
    else
      let target := min total max_features
      let pages := py_ceil_div target page_size
      let pr := runPages remote target page_size (List.range pages.toNat) [] []
      (Request.countReq :: pr.1, pr.2.map (fun feats => ⟨py_slice feats target⟩))

/-- The argument tuple of `fetch_features_geojson`; `st.cache_data` keys
the memoized result on the exact values of these arguments. -/
structure CacheKey where
  layer_url : String
  where_str : String
  out_fields : String
  bbox : Option BBox
  max_features : Int
  page_size : Int
deriving DecidableEq, Repr

/-- One memoized entry of the `st.cache_data` store: key, insertion
timestamp (seconds), and the cached FeatureCollection. -/
structure CacheEntry (α : Type) where
  key : CacheKey
  ts : Nat
  value : FeatureCollection α
deriving DecidableEq, Repr

/-- The `st.cache_data` store; newest entries sit at the front. -/
structure CacheState (α : Type) where
  entries : List (CacheEntry α)
deriving DecidableEq, Repr

/-- `ttl=300` on the `st.cache_data` decorator (app.py line 130). -/
def cacheTTL : Nat := 300

/-- Cache lookup at time `now`: the newest entry for the key, provided its
age is below the TTL; an expired entry is a miss. -/
def lookupCache {α : Type} : List (CacheEntry α) → CacheKey → Nat → Option (FeatureCollection α)
  | [], _, _ => none
  | e :: rest, k, now =>
    if e.key = k then
      (if now < e.ts + cacheTTL then some e.value else none)
    else lookupCache rest k now

/-- The behaviour of the `st.cache_data(ttl=300)` wrapper around one call of
`fetch_features_geojson` at time `now`: on a fresh hit return the cached
value without invoking the body; on a miss invoke the body (`fetchResult`),
memoize it only on success, and propagate a failure without storing
anything. The returned `Bool` records whether the body was invoked. -/
def getOrFetch {α : Type} (c : CacheState α) (k : CacheKey) (now : Nat)
    (fetchResult : Except FetchError (FeatureCollection α)) :
    CacheState α × Except FetchError (FeatureCollection α) × Bool :=
  match lookupCache c.entries k now with
  | some v => (c, .ok v, false)
  | none =>
    match fetchResult with
    | .ok v => (⟨⟨k, now, v⟩ :: c.entries⟩, .ok v, true)
    | .error e => (c, .error e, true)

/-- Modelled from the spec: the canonical cache key the spec prescribes for
`ResultCache.getOrFetch` — bounding box normalized then clamped, output
fields as a sorted set, filter string kept exact. Stated for comparison
with the code's actual key (the raw `CacheKey` tuple). -/
def specCanonicalKey (k : CacheKey) :
    String × String × Finset String × Option BBox × Int × Int :=
  (k.layer_url, k.where_str, (k.out_fields.splitOn ",").toFinset,
   k.bbox.map (fun b => b.normalized.clamp), k.max_features, k.page_size)

/-- The viewport gate's outcome (spec §4.6). -/
inductive Decision where
  | tooFarZoomedOut
  | viewportTooLarge
  | proceed
deriving DecidableEq, Repr

/-- The viewport gate inlined in `main` (app.py lines 330-336):
`if current_zoom < min_zoom: st.stop()` then
`if bbox and bbox.approx_area_deg2() > 2.0: st.stop()`; the area bound is
the hard-coded `2.0`. -/
def shouldFetch (current_zoom min_zoom : Int) (bbox : Option BBox) : Decision :=
  if current_zoom < min_zoom then Decision.tooFarZoomedOut
  else
    match bbox with
    | some b => if 2 < b.approx_area_deg2 then Decision.viewportTooLarge else Decision.proceed
    | none => Decision.proceed

/-- The fetch section of `main` (app.py lines 330-354): the gate's two
checks run first, and only when both pass is the cached fetch invoked
(`st.stop()` otherwise). The second component is `none` exactly when `main`
stops before touching the cache or the network. -/
def gate_then_fetch {α : Type} (remote : Remote α) (c : CacheState α)
    (current_zoom min_zoom : Int) (k : CacheKey) (now : Nat) :
    Decision × Option (CacheState α × Except FetchError (FeatureCollection α) × Bool) :=
  match shouldFetch current_zoom min_zoom k.bbox with
  | Decision.proceed =>
    (Decision.proceed,
     some (getOrFetch c k now (fetch_features_geojson remote k.max_features k.page_size).2))
  | d => (d, none)

/-! ## C9: normalization orders the coordinates -/

/-- C9: for every BoundingBox `b`, `b.normalized()` satisfies
`west ≤ east` and `south ≤ north`; west/east are swapped when
`west > east` and south/north are swapped when `south > north`
(`normalized` is a total Lean function, hence pure and never failing). -/
theorem normalized_spec (b : BBox) :
    (b.normalized.west ≤ b.normalized.east ∧ b.normalized.south ≤ b.normalized.north) ∧
    (b.east < b.west → b.normalized.west = b.east ∧ b.normalized.east = b.west) ∧
    (b.west ≤ b.east → b.normalized.west = b.west ∧ b.normalized.east = b.east) ∧
    (b.north < b.south → b.normalized.south = b.north ∧ b.normalized.north = b.south) ∧
    (b.south ≤ b.north → b.normalized.south = b.south ∧ b.normalized.north = b.north) := by
  refine ⟨⟨min_le_max, min_le_max⟩, fun h => ⟨?_, ?_⟩, fun h => ⟨?_, ?_⟩,
    fun h => ⟨?_, ?_⟩, fun h => ⟨?_, ?_⟩⟩ <;>
    simp only [BBox.normalized]
  · exact min_eq_right h.le
  · exact max_eq_left h.le
  · exact min_eq_left h
  · exact max_eq_right h
  · exact min_eq_right h.le
  · exact max_eq_left h.le
  · exact min_eq_left h
  · exact max_eq_right h

/-- Witness for C9 at the concrete box (west 5, south 1, east 2, north 0):
both coordinate pairs are out of order and get swapped. -/
theorem normalized_spec_witness :
    (BBox.normalized ⟨5, 1, 2, 0⟩).west = 2 ∧ (BBox.normalized ⟨5, 1, 2, 0⟩).east = 5 ∧
    (BBox.normalized ⟨5, 1, 2, 0⟩).south = 0 ∧ (BBox.normalized ⟨5, 1, 2, 0⟩).north = 1 ∧
    (BBox.normalized ⟨5, 1, 2, 0⟩).west ≤ (BBox.normalized ⟨5, 1, 2, 0⟩).east := by
  have h := normalized_spec ⟨5, 1, 2, 0⟩
  have hwe := h.2.1 (by norm_num)
  have hsn := h.2.2.2.1 (by norm_num)
  exact ⟨hwe.1, hwe.2, hsn.1, hsn.2, h.1.1⟩

/-! ## C10: clamping preserves the ordering invariants -/

/-- C10: clamping each coordinate independently preserves `west ≤ east` and
`south ≤ north`, so the normalize-then-clamp composition always yields a box
that is simultaneously normalized and within [-180,180] × [-90,90], even
though `clamp` does not renormalize. -/
theorem clamp_preserves_normalization (b : BBox) :
    (b.west ≤ b.east → b.clamp.west ≤ b.clamp.east) ∧
    (b.south ≤ b.north → b.clamp.south ≤ b.clamp.north) ∧
    (b.normalized.clamp.west ≤ b.normalized.clamp.east ∧
     b.normalized.clamp.south ≤ b.normalized.clamp.north ∧
     -180 ≤ b.normalized.clamp.west ∧ b.normalized.clamp.west ≤ 180 ∧
     -180 ≤ b.normalized.clamp.east ∧ b.normalized.clamp.east ≤ 180 ∧
     -90 ≤ b.normalized.clamp.south ∧ b.normalized.clamp.south ≤ 90 ∧
     -90 ≤ b.normalized.clamp.north ∧ b.normalized.clamp.north ≤ 90) := by
  refine ⟨fun h => ?_, fun h => ?_, ?_, ?_, ?_, ?_, ?_, ?_, ?_, ?_, ?_, ?_⟩ <;>
    simp only [BBox.clamp, BBox.normalized]
  · exact max_le_max le_rfl (min_le_min le_rfl h)
  · exact max_le_max le_rfl (min_le_min le_rfl h)
  · exact max_le_max le_rfl (min_le_min le_rfl min_le_max)
  · exact max_le_max le_rfl (min_le_min le_rfl min_le_max)
  · exact le_max_left _ _
  · exact max_le (by norm_num) (min_le_left _ _)
  · exact le_max_left _ _
  · exact max_le (by norm_num) (min_le_left _ _)
  · exact le_max_left _ _
  · exact max_le (by norm_num) (min_le_left _ _)
  · exact le_max_left _ _
  · exact max_le (by norm_num) (min_le_left _ _)

/-- Witness for C10 at the concrete box (west -200, south -100, east 300,
north 95), which is ordered but out of range. -/
theorem clamp_preserves_normalization_witness :
    (BBox.clamp ⟨-200, -100, 300, 95⟩).west ≤ (BBox.clamp ⟨-200, -100, 300, 95⟩).east ∧
    (BBox.clamp ⟨-200, -100, 300, 95⟩).south ≤ (BBox.clamp ⟨-200, -100, 300, 95⟩).north ∧
    -180 ≤ (BBox.normalized ⟨-200, -100, 300, 95⟩).clamp.west ∧
    (BBox.normalized ⟨-200, -100, 300, 95⟩).clamp.east ≤ 180 := by
  have h := clamp_preserves_normalization ⟨-200, -100, 300, 95⟩
  exact ⟨h.1 (by norm_num), h.2.1 (by norm_num), h.2.2.2.2.1, h.2.2.2.2.2.2.1⟩

/-! ## C8: the approximate area -/

/-- C8: `approx_area_deg2` equals `max 0 (Δlon * Δlat)` on the
normalized-then-clamped box, is never negative, and equals 0 for a
degenerate (zero-width or zero-height) box. -/
theorem approx_area_deg2_spec (b : BBox) :
    b.approx_area_deg2 =
      max 0 ((b.normalized.clamp.east - b.normalized.clamp.west) *
             (b.normalized.clamp.north - b.normalized.clamp.south)) ∧
    0 ≤ b.approx_area_deg2 ∧
    ((b.west = b.east ∨ b.south = b.north) → b.approx_area_deg2 = 0) := by
  refine ⟨rfl, le_max_left _ _, fun h => ?_⟩
  rcases h with h | h <;>
    simp [BBox.approx_area_deg2, BBox.normalized, BBox.clamp, h]

/-- Witness for C8 at the degenerate box with `west = east = 3`. -/
theorem approx_area_deg2_spec_witness :
    0 ≤ BBox.approx_area_deg2 ⟨3, 2, 3, 7⟩ ∧ BBox.approx_area_deg2 ⟨3, 2, 3, 7⟩ = 0 :=
  ⟨(approx_area_deg2_spec ⟨3, 2, 3, 7⟩).2.1,
   (approx_area_deg2_spec ⟨3, 2, 3, 7⟩).2.2 (Or.inl rfl)⟩

/-! ## Pagination helper lemmas -/

theorem py_ceil_div_eq {a b c : Int} (h1 : (c : ℚ) - 1 < (a : ℚ) / (b : ℚ))
    (h2 : (a : ℚ) / (b : ℚ) ≤ (c : ℚ)) : py_ceil_div a b = c :=
  Int.ceil_eq_iff.mpr ⟨h1, h2⟩

theorem py_ceil_div_nonpos {a b : Int} (ha : a ≤ 0) (hb : 0 < b) : py_ceil_div a b ≤ 0 := by
  have hq : (a : ℚ) / (b : ℚ) ≤ 0 :=
    div_nonpos_iff.mpr (Or.inr ⟨by exact_mod_cast ha, by exact_mod_cast hb.le⟩)
  simpa [py_ceil_div] using Int.ceil_le.mpr (by simpa using hq)

theorem lookupCache_eq_none {α : Type} (entries : List (CacheEntry α)) (k : CacheKey)
    (now : Nat) (h : ∀ ent ∈ entries, ent.key ≠ k) : lookupCache entries k now = none := by
  induction entries with
  | nil => rfl
  | cons e rest ih =>
    simp only [lookupCache]
    rw [if_neg (h e (by simp))]
    exact ih (fun ent hm => h ent (by simp [hm]))

theorem fetch_total_nonpos_aux {α : Type} (remote : Remote α) (o : Option Int) (mf ps : Int)
    (hcount : remote.countResponse = .ok o) (htot : o.getD 0 ≤ 0) :
    fetch_features_geojson remote mf ps = ([Request.countReq], .ok ⟨[]⟩) := by
  simp [fetch_features_geojson, arcgis_count, hcount, Except.map, htot]

theorem fetch_total_pos_eq {α : Type} (remote : Remote α) (o : Option Int) (mf ps : Int)
    (hcount : remote.countResponse = .ok o) (hpos : 0 < o.getD 0) :
    fetch_features_geojson remote mf ps =
      (Request.countReq ::
        (runPages remote (min (o.getD 0) mf) ps
          (List.range (py_ceil_div (min (o.getD 0) mf) ps).toNat) [] []).1,
       (runPages remote (min (o.getD 0) mf) ps
          (List.range (py_ceil_div (min (o.getD 0) mf) ps).toNat) [] []).2.map
         (fun feats => ⟨py_slice feats (min (o.getD 0) mf)⟩)) := by
  simp [fetch_features_geojson, arcgis_count, hcount, Except.map, not_le.mpr hpos]

theorem fetch_cap_nonpos_aux {α : Type} (remote : Remote α) (o : Option Int) (mf ps : Int)
    (hmf : mf ≤ 0) (hps : 0 < ps) (hcount : remote.countResponse = .ok o) :
    fetch_features_geojson remote mf ps = ([Request.countReq], .ok ⟨[]⟩) := by
  rcases le_or_lt (o.getD 0) 0 with h | h
  · exact fetch_total_nonpos_aux remote o mf ps hcount h
  · rw [fetch_total_pos_eq remote o mf ps hcount h]
    have htarget : min (o.getD 0) mf ≤ 0 := le_trans (min_le_right _ _) hmf
    have hp : (py_ceil_div (min (o.getD 0) mf) ps).toNat = 0 :=
      Int.toNat_of_nonpos (py_ceil_div_nonpos htarget hps)
    rw [hp]
    simp [runPages, py_slice, Except.map, apply_ite]

/-! ## C6: a non-positive remote count short-circuits to empty -/

/-- C6: whenever the count request succeeds with `total <= 0`,
`fetch_features_geojson` returns the empty FeatureCollection immediately
(a valid `.ok` value, not an error) and the request trace contains only the
count query — no page query is issued. -/
theorem fetch_empty_on_nonpositive_total {α : Type} (remote : Remote α) (o : Option Int)
    (mf ps : Int) (hcount : remote.countResponse = .ok o) (htot : o.getD 0 ≤ 0) :
    fetch_features_geojson remote mf ps = ([Request.countReq], .ok ⟨[]⟩) :=
  fetch_total_nonpos_aux remote o mf ps hcount htot

/-- A remote whose count query reports 0 matching features. -/
def zeroCountRemote : Remote Nat :=
  { countResponse := .ok (some 0), pageResponse := fun _ _ => .ok [] }

/-- Witness for C6: with a remote count of 0, the fetch returns the empty
collection after the count query alone. -/
theorem fetch_empty_on_nonpositive_total_witness :
    fetch_features_geojson zeroCountRemote 2000 1000 = ([Request.countReq], .ok ⟨[]⟩) :=
  fetch_empty_on_nonpositive_total zeroCountRemote (some 0) 2000 1000 rfl (by simp)

/-! ## C2: a non-positive feature cap -/

/-- A remote whose count query reports 5 matching features. -/
def posCountRemote : Remote Nat :=
  { countResponse := .ok (some 5), pageResponse := fun _ _ => .ok [] }

/-- Counterexample to C2 as stated: with `max_features = 0` and a remote
count of 5, `fetch_features_geojson` does return the empty
FeatureCollection, but its request trace is `[countReq]`, not `[]` — the
count query is issued before the cap is ever consulted, so the call is not
free of network requests. -/
theorem fetch_nonpositive_cap_counterexample :
    (fetch_features_geojson posCountRemote 0 1000).1 = [Request.countReq] ∧
    (fetch_features_geojson posCountRemote 0 1000).2 = .ok ⟨[]⟩ ∧
    [Request.countReq] ≠ ([] : List Request) := by
  have h := fetch_cap_nonpos_aux posCountRemote (some 5) 0 1000 le_rfl (by norm_num) rfl
  exact ⟨by rw [h], by rw [h], by simp⟩

/-- C2 as amended: with `max_features ≤ 0` (and a positive page size), the
count request is still issued; when it succeeds the function returns an
empty FeatureCollection without issuing any page request. -/
theorem fetch_nonpositive_cap_issues_count_only {α : Type} (remote : Remote α)
    (o : Option Int) (mf ps : Int) (hmf : mf ≤ 0) (hps : 0 < ps)
    (hcount : remote.countResponse = .ok o) :
    fetch_features_geojson remote mf ps = ([Request.countReq], .ok ⟨[]⟩) :=
  fetch_cap_nonpos_aux remote o mf ps hmf hps hcount

/-- Witness for the amended C2 at `max_features = -3`, remote count 5. -/
theorem fetch_nonpositive_cap_witness :
    fetch_features_geojson posCountRemote (-3) 1000 = ([Request.countReq], .ok ⟨[]⟩) :=
  fetch_nonpositive_cap_issues_count_only posCountRemote (some 5) (-3) 1000 (by norm_num)
    (by norm_num) rfl

/-! ## C5: the result is capped at min(total, max_features) -/

/-- C5: for every successful fetch — any remote page behaviour, including
pages that return more features than the requested `resultRecordCount` —
the returned FeatureCollection has at most `min(total, max_features)`
features: the loop breaks once the accumulator reaches `target` and the
accumulator is truncated to `features[:target]`. Stated over the spec's
domain: non-negative remote count, non-negative cap, positive page size. -/
theorem fetch_length_le_min {α : Type} (remote : Remote α) (o : Option Int) (mf ps : Int)
    (fc : FeatureCollection α) (hcount : remote.countResponse = .ok o)
    (htot : 0 ≤ o.getD 0) (hmf : 0 ≤ mf) (hps : 0 < ps)
    (hok : (fetch_features_geojson remote mf ps).2 = .ok fc) :
    (fc.features.length : Int) ≤ min (o.getD 0) mf := by
  rcases le_or_lt (o.getD 0) 0 with h | h
  · rw [fetch_total_nonpos_aux remote o mf ps hcount h] at hok
    have hfc : (⟨[]⟩ : FeatureCollection α) = fc := by injection hok
    rw [← hfc]
    exact le_min htot hmf
  · rw [fetch_total_pos_eq remote o mf ps hcount h] at hok
    have htarget : 0 ≤ min (o.getD 0) mf := le_min h.le hmf
    cases hres : (runPages remote (min (o.getD 0) mf) ps
        (List.range (py_ceil_div (min (o.getD 0) mf) ps).toNat) [] []).2 with
    | error e => rw [hres] at hok; simp [Except.map] at hok
    | ok feats =>
      rw [hres] at hok
      simp only [Except.map, Except.ok.injEq] at hok
      rw [← hok]
      rw [py_slice, if_pos htarget]
      calc ((feats.take (min (o.getD 0) mf).toNat).length : ℤ)
          ≤ ((min (o.getD 0) mf).toNat : ℤ) := by
            exact_mod_cast List.length_take_le _ _
        _ = min (o.getD 0) mf := Int.toNat_of_nonneg htarget

/-- A remote with 10000 matching features that honours every page request
exactly, filling each page with the page's offset. -/
def bulkRemote : Remote Nat :=
  { countResponse := .ok (some 10000)
    pageResponse := fun off rc => .ok (List.replicate rc.toNat off.toNat) }

/-- Helper: the full 3-page computation for `total = 10000,
max_features = 2500, page_size = 1000` against any remote that answers the
three page requests with chunks of the requested lengths. Shared by the
pagination theorem and by concrete witnesses. -/
theorem fetch_pages_2500_aux {α : Type} (remote : Remote α) (c0 c1 c2 : List α)
    (hcount : remote.countResponse = .ok (some 10000))
    (h0 : remote.pageResponse 0 1000 = .ok c0) (hl0 : c0.length = 1000)
    (h1 : remote.pageResponse 1000 1000 = .ok c1) (hl1 : c1.length = 1000)
    (h2 : remote.pageResponse 2000 500 = .ok c2) (hl2 : c2.length = 500) :
    fetch_features_geojson remote 2500 1000 =
      ([Request.countReq, Request.pageReq 0 1000, Request.pageReq 1000 1000,
        Request.pageReq 2000 500], .ok ⟨c0 ++ c1 ++ c2⟩) := by
  have hpos : (0:ℤ) < (some (10000:ℤ)).getD 0 := by norm_num
  rw [fetch_total_pos_eq remote (some 10000) 2500 1000 hcount hpos]
  have hmin : min ((some (10000:ℤ)).getD 0) 2500 = 2500 := by norm_num
  rw [hmin]
  have hpg : py_ceil_div 2500 1000 = 3 := py_ceil_div_eq (by norm_num) (by norm_num)
  rw [hpg]
  have htake : py_slice (c0 ++ (c1 ++ c2)) 2500 = c0 ++ (c1 ++ c2) := by
    rw [py_slice, if_pos (by norm_num)]
    exact List.take_of_length_le (by simp [hl0, hl1, hl2])
  norm_num [runPages, min_def, h0, h1, h2, hl0, hl1, hl2, htake, List.range_succ]
  simp [Except.map, htake]

/-- Witness for C5 with `total = 10000, max_features = 2500`: the fetch
succeeds with exactly 2500 features, within the `min(total, max_features)`
bound. -/
theorem fetch_length_le_min_witness :
    (fetch_features_geojson bulkRemote 2500 1000).2 =
      .ok ⟨List.replicate 1000 0 ++ List.replicate 1000 1000 ++ List.replicate 500 2000⟩ ∧
    ((List.replicate 1000 0 ++ List.replicate 1000 1000 ++
        (List.replicate 500 2000 : List Nat)).length : Int) ≤
      min ((some (10000:Int)).getD 0) 2500 := by
  have h := fetch_pages_2500_aux bulkRemote (List.replicate 1000 0)
    (List.replicate 1000 1000) (List.replicate 500 2000) rfl rfl
    (by rw [List.length_replicate]) rfl (by rw [List.length_replicate]) rfl
    (by rw [List.length_replicate])
  have hok : (fetch_features_geojson bulkRemote 2500 1000).2 =
      .ok ⟨List.replicate 1000 0 ++ List.replicate 1000 1000 ++ List.replicate 500 2000⟩ := by
    rw [h]
  exact ⟨hok, fetch_length_le_min bulkRemote (some 10000) 2500 1000 _ rfl
    (by norm_num) (by norm_num) (by norm_num) hok⟩

/-! ## C1: three-page pagination at maxFeatures 2500, total 10000 -/

/-- C1: with `max_features = 2500`, a remote count of 10000 and
`page_size = 1000`, the fetch issues exactly three page requests with
offsets 0, 1000, 2000 and record counts 1000, 1000, 500 (after the count
query), and returns exactly 2500 features: the three returned chunks
concatenated in page order. -/
theorem fetch_pagination_3_pages {α : Type} (remote : Remote α) (c0 c1 c2 : List α)
    (hcount : remote.countResponse = .ok (some 10000))
    (h0 : remote.pageResponse 0 1000 = .ok c0) (hl0 : c0.length = 1000)
    (h1 : remote.pageResponse 1000 1000 = .ok c1) (hl1 : c1.length = 1000)
    (h2 : remote.pageResponse 2000 500 = .ok c2) (hl2 : c2.length = 500) :
    fetch_features_geojson remote 2500 1000 =
      ([Request.countReq, Request.pageReq 0 1000, Request.pageReq 1000 1000,
        Request.pageReq 2000 500], .ok ⟨c0 ++ c1 ++ c2⟩) ∧
    (c0 ++ c1 ++ c2).length = 2500 :=
  ⟨fetch_pages_2500_aux remote c0 c1 c2 hcount h0 hl0 h1 hl1 h2 hl2,
   by simp [hl0, hl1, hl2]⟩

/-- Witness for C1 against `bulkRemote`, which fills each page with exactly
the requested number of features. -/
theorem fetch_pagination_3_pages_witness :
    fetch_features_geojson bulkRemote 2500 1000 =
      ([Request.countReq, Request.pageReq 0 1000, Request.pageReq 1000 1000,
        Request.pageReq 2000 500],
       .ok ⟨List.replicate 1000 0 ++ List.replicate 1000 1000 ++ List.replicate 500 2000⟩) ∧
    (List.replicate 1000 0 ++ List.replicate 1000 1000 ++
      (List.replicate 500 2000 : List Nat)).length = 2500 :=
  fetch_pagination_3_pages bulkRemote (List.replicate 1000 0) (List.replicate 1000 1000)
    (List.replicate 500 2000) rfl rfl (by rw [List.length_replicate]) rfl
    (by rw [List.length_replicate]) rfl (by rw [List.length_replicate])

/-! ## C4: a failing fetch propagates and is not cached -/

/-- C4: whenever the fetch fails (the count request or any page request
raised a transport or HTTP error, making the fetch result `.error e`), the
cached wrapper surfaces exactly that error — no partial FeatureCollection,
features from earlier successful pages of the call having been discarded —
stores nothing for the key, and a later call with the same key invokes the
fetch again. -/
theorem fetch_failure_not_cached {α : Type} (remote : Remote α) (mf ps : Int)
    (e : FetchError) (c : CacheState α) (k : CacheKey) (t t2 : Nat)
    (hmiss : ∀ ent ∈ c.entries, ent.key ≠ k)
    (herr : (fetch_features_geojson remote mf ps).2 = .error e) :
    getOrFetch c k t (fetch_features_geojson remote mf ps).2 = (c, .error e, true) ∧
    (getOrFetch c k t2 (fetch_features_geojson remote mf ps).2).2.2 = true := by
  have hl : lookupCache c.entries k t = none := lookupCache_eq_none c.entries k t hmiss
  have hl2 : lookupCache c.entries k t2 = none := lookupCache_eq_none c.entries k t2 hmiss
  constructor
  · simp [getOrFetch, hl, herr]
  · simp [getOrFetch, hl2, herr]

/-- A remote with 10000 matching features whose page queries fail with an
HTTP 500 at every offset except 0. -/
def failingRemote : Remote Nat :=
  { countResponse := .ok (some 10000)
    pageResponse := fun off rc =>
      if off = 0 then .ok (List.replicate rc.toNat 0) else .error (.httpError 500) }

/-- A concrete argument tuple used as cache key in witnesses. -/
def demoKey : CacheKey :=
  ⟨"https://layer/0", "COUNTY_NAME = 'Schenectady'", "A,B", none, 2500, 1000⟩

/-- Witness for C4: the first page of `failingRemote` succeeds with 1000
features, the second fails with HTTP 500; the fetch surfaces the error, the
cache stays empty, and a retry at a later time still invokes the fetch. -/
theorem fetch_failure_not_cached_witness :
    (fetch_features_geojson failingRemote 2500 1000).2 = .error (.httpError 500) ∧
    getOrFetch (⟨[]⟩ : CacheState Nat) demoKey 0
        (fetch_features_geojson failingRemote 2500 1000).2 =
      (⟨[]⟩, .error (.httpError 500), true) ∧
    (getOrFetch (⟨[]⟩ : CacheState Nat) demoKey 170
        (fetch_features_geojson failingRemote 2500 1000).2).2.2 = true := by
  have herr : (fetch_features_geojson failingRemote 2500 1000).2 = .error (.httpError 500) := by
    rw [fetch_total_pos_eq failingRemote (some 10000) 2500 1000 rfl (by norm_num)]
    rw [show min ((some (10000:ℤ)).getD 0) 2500 = 2500 by norm_num,
        show py_ceil_div 2500 1000 = 3 from py_ceil_div_eq (by norm_num) (by norm_num)]
    norm_num [runPages, min_def, failingRemote, Except.map, List.range_succ,
      List.length_replicate]
  have h := fetch_failure_not_cached failingRemote 2500 1000 (.httpError 500)
    ⟨[]⟩ demoKey 0 170 (by simp) herr
  exact ⟨herr, h.1, h.2⟩

/-! ## C3: the cache key is the raw argument tuple, not a canonical key -/

/-- A cache key whose bounding box is stated with west/east out of order. -/
def viewKeyA : CacheKey :=
  ⟨"https://layer/0", "COUNTY_NAME = 'Schenectady'", "A,B", some ⟨1, 0, 0, 1⟩, 2000, 1000⟩

/-- The same query with the bounding box already normalized: canonically
equal to `viewKeyA` but a different raw argument tuple. -/
def viewKeyB : CacheKey :=
  ⟨"https://layer/0", "COUNTY_NAME = 'Schenectady'", "A,B", some ⟨0, 0, 1, 1⟩, 2000, 1000⟩

/-- Counterexample to C3 as stated: `viewKeyA` and `viewKeyB` have equal
canonical keys (their boxes agree after normalize+clamp, fields and filter
identical), yet two calls within the TTL — at times 0 and 10 — each invoke
the underlying fetch: `st.cache_data` keys on the raw argument tuple, so
the second call is a miss, not a hit. -/
theorem cache_canonical_key_counterexample :
    specCanonicalKey viewKeyA = specCanonicalKey viewKeyB ∧
    viewKeyA ≠ viewKeyB ∧
    (getOrFetch (⟨[]⟩ : CacheState Nat) viewKeyA 0 (.ok ⟨[7]⟩)).2.2 = true ∧
    (getOrFetch (getOrFetch (⟨[]⟩ : CacheState Nat) viewKeyA 0 (.ok ⟨[7]⟩)).1 viewKeyB 10
        (.ok ⟨[7]⟩)).2.2 = true := by
  have hne : viewKeyA ≠ viewKeyB := by
    simp only [viewKeyA, viewKeyB, ne_eq, CacheKey.mk.injEq, Option.some.injEq,
      BBox.mk.injEq]
    norm_num
  refine ⟨?_, hne, rfl, ?_⟩
  · simp only [specCanonicalKey, viewKeyA, viewKeyB, Option.map_some', Prod.mk.injEq,
      BBox.normalized, BBox.clamp]
    norm_num [min_def, max_def]
  · simp [getOrFetch, lookupCache, hne]

/-- C3 as amended: the cache key is the exact argument tuple. Two calls
within the TTL with identical raw arguments — same URL, filter string,
field string, the same bounding box as given (not merely canonically
equal), cap and page size — invoke the underlying fetch exactly once: if
the first call was a miss that fetched successfully, the second call is
served from the cache without invoking the fetch. -/
theorem cache_hit_within_ttl {α : Type} (c c1 : CacheState α) (k : CacheKey) (t1 t2 : Nat)
    (f1 f2 : Except FetchError (FeatureCollection α)) (v : FeatureCollection α)
    (hfirst : getOrFetch c k t1 f1 = (c1, .ok v, true))
    (h12 : t1 ≤ t2) (httl : t2 < t1 + cacheTTL) :
    getOrFetch c1 k t2 f2 = (c1, .ok v, false) := by
  unfold getOrFetch at hfirst
  cases hl : lookupCache c.entries k t1 with
  | some w => rw [hl] at hfirst; simp at hfirst
  | none =>
    rw [hl] at hfirst
    cases f1 with
    | error e => simp at hfirst
    | ok w =>
      simp only [Prod.mk.injEq, Except.ok.injEq] at hfirst
      obtain ⟨hc1, hv, -⟩ := hfirst
      subst hc1
      subst hv
      simp [getOrFetch, lookupCache, httl]

/-- Witness for the amended C3: a fresh fetch at time 0 stored under
`demoKey`, then a second call at time 100 (within the 300-second TTL) is a
hit that does not invoke the fetch. -/
theorem cache_hit_within_ttl_witness :
    getOrFetch (⟨[⟨demoKey, 0, ⟨[7]⟩⟩]⟩ : CacheState Nat) demoKey 100 (.ok ⟨[9]⟩) =
      (⟨[⟨demoKey, 0, ⟨[7]⟩⟩]⟩, .ok ⟨[7]⟩, false) :=
  cache_hit_within_ttl ⟨[]⟩ ⟨[⟨demoKey, 0, ⟨[7]⟩⟩]⟩ demoKey 0 100 (.ok ⟨[7]⟩) (.ok ⟨[9]⟩)
    ⟨[7]⟩ rfl (by norm_num) (by norm_num [cacheTTL])

/-! ## C7: the viewport gate -/

/-- C7: the gate yields `TooFarZoomedOut` exactly when `current_zoom <
min_zoom`; otherwise `ViewportTooLarge` exactly when a bounding box is
present with approximate area above 2.0; otherwise `Proceed` — and the
cached fetch (and hence any cache lookup or network request) runs only
when the gate says `Proceed`: on any other decision `main` stops with no
cache or network activity. -/
theorem viewport_gate_spec (cz mz : Int) (bb : Option BBox) :
    (shouldFetch cz mz bb = Decision.tooFarZoomedOut ↔ cz < mz) ∧
    (shouldFetch cz mz bb = Decision.viewportTooLarge ↔
      (¬ cz < mz ∧ ∃ b, bb = some b ∧ 2 < b.approx_area_deg2)) ∧
    ((¬ cz < mz ∧ ∀ b, bb = some b → ¬ 2 < b.approx_area_deg2) →
      shouldFetch cz mz bb = Decision.proceed) ∧
    (∀ (α : Type) (remote : Remote α) (c : CacheState α) (k : CacheKey) (now : Nat),
      shouldFetch cz mz k.bbox ≠ Decision.proceed →
        (gate_then_fetch remote c cz mz k now).2 = none) ∧
    (∀ (α : Type) (remote : Remote α) (c : CacheState α) (k : CacheKey) (now : Nat),
      shouldFetch cz mz k.bbox = Decision.proceed →
        (gate_then_fetch remote c cz mz k now).2 =
          some (getOrFetch c k now
            (fetch_features_geojson remote k.max_features k.page_size).2)) := by
  refine ⟨?_, ?_, ?_, ?_, ?_⟩
  · rcases bb with _ | b
    · unfold shouldFetch
      by_cases h : cz < mz <;> simp [h]
    · unfold shouldFetch
      by_cases h : cz < mz
      · simp [h]
      · by_cases h2 : 2 < b.approx_area_deg2 <;> simp [h, h2]
  · rcases bb with _ | b
    · unfold shouldFetch
      by_cases h : cz < mz <;> simp [h]
    · unfold shouldFetch
      by_cases h : cz < mz
      · simp [h]
      · by_cases h2 : 2 < b.approx_area_deg2 <;> simp [h, h2]
  · rintro ⟨h1, h2⟩
    rcases bb with _ | b
    · unfold shouldFetch
      rw [if_neg h1]
    · unfold shouldFetch
      rw [if_neg h1]
      simp [h2 b rfl]
  · intro α remote c k now hne
    unfold gate_then_fetch
    cases hd : shouldFetch cz mz k.bbox with
    | tooFarZoomedOut => rfl
    | viewportTooLarge => rfl
    | proceed => exact absurd hd hne
  · intro α remote c k now hd
    unfold gate_then_fetch
    rw [hd]

/-- Witness for C7 at `current_zoom = 10, min_zoom = 13` with no bounding
box: the gate says `TooFarZoomedOut` and `main` performs no cache lookup or
network call. -/
theorem viewport_gate_spec_witness :
    shouldFetch 10 13 none = Decision.tooFarZoomedOut ∧
    (gate_then_fetch zeroCountRemote (⟨[]⟩ : CacheState Nat) 10 13 demoKey 0).2 = none := by
  have h := viewport_gate_spec 10 13 none
  have hsf : shouldFetch 10 13 demoKey.bbox = Decision.tooFarZoomedOut :=
    h.1.mpr (by norm_num)
  exact ⟨h.1.mpr (by norm_num),
    h.2.2.2.1 Nat zeroCountRemote ⟨[]⟩ demoKey 0 (by rw [hsf]; simp)⟩
